import Mathlib

/-!
# Verification of the RAM SpeedTest benchmark core

Shallow embedding of `ram_speedtest.py` (the benchmark engine, the
allocation-sizing policy and the result record) together with theorems
settling the specification claims.

Modelling conventions:
* Python ints become `ℕ` (byte counts, loop counts, checksums) or `ℤ`
  (memory-probe readings, which are arbitrary ints in the source).
* Python floats (times, durations) become `ℚ`; the claims settled here
  concern branching structure and accumulation, not rounding.
* The external environment (the monotonic clock `time.perf_counter`,
  the shared `stop_event` flag, the bytes held by the buffer when it is
  read, and exceptions raised by memory operations) is supplied by
  oracles in a `RunEnv`, indexed by call count (for the clock and the
  flag) or by loop iteration (for buffer contents and exceptions).
* The `while` loop of `run_benchmark` is given explicit fuel: a run
  model with fuel `n` performs at most `n` loop iterations and then
  exits through the same path the source uses when the timing condition
  turns false.  Every theorem quantifies over the fuel.
-/

namespace RamSpeedtest

/-- Constant `GiB = 1024 ** 3` from the source. -/
def GiB : ℕ := 1024 ^ 3

/-- Constant `MiB = 1024 ** 2` from the source. -/
def MiB : ℕ := 1024 ^ 2

/-! ## BenchmarkResult (source lines 203–231) -/

/-- The result record built by `BenchmarkResult.__init__`, with the
fields the engine fills in.  `duration_s` is the clamped duration,
`started_at`/`ended_at` are opaque timestamp strings. -/
structure BenchmarkResult where
  ok : Bool := false
  error : String := ""
  allocated_bytes : ℕ := 0
  duration_s : ℚ := 0
  write_bytes : ℕ := 0
  read_bytes : ℕ := 0
  write_time : ℚ := 0
  read_time : ℚ := 0
  checksum : ℕ := 0
  loops : ℕ := 0
  started_at : String := ""
  ended_at : String := ""
deriving DecidableEq, Repr

/-- The `write_gbps` property: `write_bytes / write_time / GiB` if
`write_time > 0` else `0.0`. -/
def BenchmarkResult.write_gbps (r : BenchmarkResult) : ℚ :=
  if 0 < r.write_time then (r.write_bytes : ℚ) / r.write_time / (GiB : ℚ) else 0

/-- The `read_gbps` property: `read_bytes / read_time / GiB` if
`read_time > 0` else `0.0`. -/
def BenchmarkResult.read_gbps (r : BenchmarkResult) : ℚ :=
  if 0 < r.read_time then (r.read_bytes : ℚ) / r.read_time / (GiB : ℚ) else 0

/-- The `total_gbps` property: `(write_bytes + read_bytes) / (write_time +
read_time) / GiB` if the combined time is positive, else `0.0`. -/
def BenchmarkResult.total_gbps (r : BenchmarkResult) : ℚ :=
  let t := r.write_time + r.read_time
  let b := (r.write_bytes : ℚ) + (r.read_bytes : ℚ)
  if 0 < t then b / t / (GiB : ℚ) else 0

/-! ## Allocation sizing policy (source lines 233–254)

The source reads `total` and `available` from `get_virtual_memory()`;
here they are passed as the two `ℤ` arguments (Python ints). -/

/-- The function `choose_100_percent_allocation`, translated clause by clause from
the source: `1 GiB` fallback when `total <= 0`; otherwise
`reserve = 128 MiB`, `target = max(256 MiB, total - reserve)`,
`hard_fallback = max(256 MiB, avail - 64 MiB) if avail > 0 else target`,
and the returned value is
`max(256 MiB, min(target, hard_fallback if hard_fallback > 0 else target))`. -/
def choose_100_percent_allocation (total avail : ℤ) : ℤ :=
  if total ≤ 0 then 1 * (GiB : ℤ)
  else
    let reserve : ℤ := 128 * (MiB : ℤ)
    let target : ℤ := max (256 * (MiB : ℤ)) (total - reserve)
    let hard_fallback : ℤ :=
      if 0 < avail then max (256 * (MiB : ℤ)) (avail - 64 * (MiB : ℤ)) else target
    max (256 * (MiB : ℤ)) (min target (if 0 < hard_fallback then hard_fallback else target))

/-- The sizing algorithm exactly as the specification words it
(§4.2): `reserve = 128 MiB`; `target = max(256 MiB, total - reserve)`;
`hard_fallback = max(256 MiB, available - 64 MiB)` if `available > 0`,
else `target`; result `max(256 MiB, min(target, hard_fallback))`; and a
fixed `1 GiB` plan when `total <= 0`.  Written from the spec's words to
be compared with the source translation above. -/
def plan_spec (total avail : ℤ) : ℤ :=
  if total ≤ 0 then (GiB : ℤ)
  else
    let reserve : ℤ := 128 * (MiB : ℤ)
    let target : ℤ := max (256 * (MiB : ℤ)) (total - reserve)
    let hard_fallback : ℤ :=
      if 0 < avail then max (256 * (MiB : ℤ)) (avail - 64 * (MiB : ℤ)) else target
    max (256 * (MiB : ℤ)) (min target hard_fallback)

/-! ## adler32 (the primitive `zlib.adler32(data, value)` used by the
read phase; modelled from its standard definition: running pair
`(a, b)` mod 65521, seeded from the low/high 16-bit halves of `value`,
returning `b * 2^16 + a`). -/

/-- One byte step of adler32: advance the `(a, b)` pair. -/
def adler_step (ab : ℕ × ℕ) (byte : ℕ) : ℕ × ℕ :=
  let a := (ab.1 + byte) % 65521
  (a, (ab.2 + a) % 65521)

/-- One `zlib.adler32(data, value)` call over a byte list. -/
def adler32 (data : List ℕ) (value : ℕ) : ℕ :=
  let a0 := value % 65536
  let b0 := value / 65536 % 65536
  let p := data.foldl adler_step (a0, b0)
  p.2 * 65536 + p.1

/-! ## The run environment and the error messages of `run_benchmark` -/

/-- Message stored on `except MemoryError` during allocation
(source line 274). -/
def alloc_memory_error_msg : String :=
  "จัดสรร RAM ไม่สำเร็จ (MemoryError) — RAM/Virtual memory ไม่พอ"

/-- Prefix of the message stored on a generic allocation exception
(source line 277). -/
def alloc_error_head : String := "จัดสรร RAM ไม่สำเร็จ: "

/-- Prefix of the message stored on a write-phase exception
(source line 327). -/
def write_error_head : String := "เขียน RAM ผิดพลาด: "

/-- Prefix of the message stored on a read-phase exception
(source line 339). -/
def read_error_head : String := "อ่าน RAM ผิดพลาด: "

/-- Outcome of `bytearray(size_bytes)`: success, `MemoryError`, or some
other exception carrying a message. -/
inductive AllocOutcome where
  | success
  | memoryError
  | otherError (msg : String)
deriving DecidableEq, Repr

/-- Oracles for everything `run_benchmark` observes from outside:
`stop k` is the value returned by the `k`-th `stop_event.is_set()`
call, `clock k` the value returned by the `k`-th
`time.perf_counter()` call, `content k` the bytes held by the buffer
when iteration `k`'s read phase scans it, and `writeExc k` /
`readExc k` the exception (message) raised, if any, inside iteration
`k`'s write / read phase.  The timestamp strings stand for the
`datetime.now().strftime` values. -/
structure RunEnv where
  stop : ℕ → Bool
  clock : ℕ → ℚ
  content : ℕ → List ℕ
  writeExc : ℕ → Option String
  readExc : ℕ → Option String
  started_stamp : String
  ended_stamp : String

/-! ## The chunked fallback fill (priming, source lines 293–297, and
the write phase, source lines 321–325, when `MEMSET`/`ptr` are
unavailable): `for i in range(0, len(buf), 1 MiB)`, breaking out as
soon as `stop_event.is_set()` reads true, otherwise storing
`min(chunk, len(buf) - i)` bytes.  Returns the bytes actually stored
and the updated `is_set` call counter. -/

/-- Loop body of the chunked fill, recursing on the number of
remaining range indices (`ceil(bufLen / chunkLen)` at the start).  `i`
is the current offset, `sc` the next `is_set` call index, `written`
the bytes stored so far. -/
def chunked_fill_go (stop : ℕ → Bool) (bufLen chunkLen : ℕ) :
    ℕ → ℕ → ℕ → ℕ → ℕ × ℕ
  | 0, _, sc, written => (written, sc)
  | n + 1, i, sc, written =>
    if stop sc then (written, sc + 1)
    else chunked_fill_go stop bufLen chunkLen n (i + chunkLen) (sc + 1)
      (written + min chunkLen (bufLen - i))

/-- The chunked fallback fill over the whole buffer, starting the
`is_set` call counter at `sc`. -/
def chunked_fill (bufLen chunkLen : ℕ) (stop : ℕ → Bool) (sc : ℕ) : ℕ × ℕ :=
  chunked_fill_go stop bufLen chunkLen ((bufLen + chunkLen - 1) / chunkLen) 0 sc 0

/-! ## The benchmark loop (source lines 301–385) -/

/-- The local accumulators of `run_benchmark`'s loop, plus the oracle
call counters (`sc` = next `is_set` call index, `cc` = next
`perf_counter` call index) and a ghost trace `writeTrace` recording,
for each write phase that ran, how many bytes it physically stored
into the buffer (the source credits `write_bytes += len(buf)` even
when the fallback fill broke early; the trace keeps the physical
count observable). -/
structure LoopSt where
  sc : ℕ := 0
  cc : ℕ := 0
  wb : ℕ := 0
  rb : ℕ := 0
  wt : ℚ := 0
  rt : ℚ := 0
  ck : ℕ := 0
  lp : ℕ := 0
  writeTrace : List ℕ := []
deriving DecidableEq, Repr

/-- The normal exit path (source lines 377–385): copy the accumulators
into the result, set `ok = not bool(res.error)`, mask the checksum to
32 bits and stamp `ended_at`. -/
def finish_result (env : RunEnv) (res1 : BenchmarkResult) (s : LoopSt) :
    BenchmarkResult :=
  { res1 with
    ok := res1.error == ""
    write_bytes := s.wb
    read_bytes := s.rb
    write_time := s.wt
    read_time := s.rt
    checksum := s.ck % 2 ^ 32
    loops := s.lp
    ended_at := env.ended_stamp }

/-- The `while not stop_event.is_set() and time.perf_counter() < t_end`
loop (source lines 314–375).  Each iteration: write phase (bulk
`MEMSET` when `memset_ok`, else the chunked fallback with its own
mid-phase `is_set` checks; either way `write_bytes += len(buf)` on
success), then read phase (`checksum = zlib.adler32(mv, checksum)` over
the whole buffer in one call), then `loops += 1`.  A phase exception
stores its message in `error` and returns the result immediately,
leaving the result's counters untouched.  The progress callback
(source lines 348–375) mutates no accumulator that reaches the result
and is omitted.  Fuel bounds the number of iterations modelled; fuel
exhaustion exits through the same path as an expired clock.  Returns
the result and the final internal state (ghost observation). -/
def run_loop (size_bytes : ℕ) (t_end : ℚ) (memset_ok : Bool) (env : RunEnv)
    (res1 : BenchmarkResult) : ℕ → LoopSt → BenchmarkResult × LoopSt
  | 0, s => (finish_result env res1 s, s)
  | fuel + 1, s =>
    if env.stop s.sc then
      let s' := { s with sc := s.sc + 1 }
      (finish_result env res1 s', s')
    else if ¬ env.clock s.cc < t_end then
      let s' := { s with sc := s.sc + 1, cc := s.cc + 1 }
      (finish_result env res1 s', s')
    else
      match env.writeExc s.lp with
      | some e =>
        ({ res1 with error := write_error_head ++ e },
         { s with sc := s.sc + 1, cc := s.cc + 2 })
      | none =>
        let fill : ℕ × ℕ :=
          if memset_ok then (size_bytes, s.sc + 1)
          else chunked_fill size_bytes MiB env.stop (s.sc + 1)
        let t0 := env.clock (s.cc + 1)
        let t1 := env.clock (s.cc + 2)
        let wtd := t1 - t0
        match env.readExc s.lp with
        | some e =>
          ({ res1 with error := read_error_head ++ e },
           { s with
             sc := fill.2, cc := s.cc + 4,
             wb := s.wb + size_bytes, wt := s.wt + wtd,
             writeTrace := s.writeTrace ++ [fill.1] })
        | none =>
          let ck1 := adler32 (env.content s.lp) s.ck
          let t2 := env.clock (s.cc + 3)
          let t3 := env.clock (s.cc + 4)
          let rtd := t3 - t2
          run_loop size_bytes t_end memset_ok env res1 fuel
            { s with
              sc := fill.2, cc := s.cc + 6,
              wb := s.wb + size_bytes, rb := s.rb + size_bytes,
              wt := s.wt + wtd, rt := s.rt + rtd,
              ck := ck1, lp := s.lp + 1,
              writeTrace := s.writeTrace ++ [fill.1] }

/-- The duration clamp `duration_s = max(1.0, float(duration_s))`
(source line 266), written as a reducible conditional. -/
def clamp_duration (d : ℚ) : ℚ := if 1 ≤ d then d else 1

/-- The result record right after `started_at` is stamped and the
clamped duration stored (source lines 264–267). -/
def init_result (env : RunEnv) (d : ℚ) : BenchmarkResult :=
  { duration_s := clamp_duration d, started_at := env.started_stamp }

/-- The result record after `res.allocated_bytes = len(buf)`
(source line 272). -/
def alloc_result (env : RunEnv) (d : ℚ) (sb : ℕ) : BenchmarkResult :=
  { init_result env d with allocated_bytes := sb }

/-- Count of `is_set` calls consumed by the priming pass: none on the bulk
`MEMSET` path, those of the chunked fill otherwise
(source lines 289–299). -/
def prime_sc (sb : ℕ) (mo : Bool) (env : RunEnv) : ℕ :=
  if mo then 0 else (chunked_fill sb MiB env.stop 0).2

/-- The loop state on entry: all accumulators zero, one clock call
(`t0_global`) consumed, priming's `is_set` calls consumed. -/
def init_state (sb : ℕ) (mo : Bool) (env : RunEnv) : LoopSt :=
  { sc := prime_sc sb mo env, cc := 1 }

/-- Deadline `t_end = t0_global + duration_s` (source lines 301–302). -/
def t_end_of (env : RunEnv) (d : ℚ) : ℚ := env.clock 0 + clamp_duration d

/-- The engine `run_benchmark(size_bytes, duration_s, stop_event, progress_cb)`
(source lines 257–385), returning the result plus the final internal
loop state as a ghost observation.  Order of operations follows the
source: stamp `started_at`, clamp the duration to at least 1 s,
allocate (`bytearray(size_bytes)`; an exception stores the message and
returns at once, with `allocated_bytes` still 0), prime the buffer
(one bulk `MEMSET` when available — no `is_set` calls — else the
chunked fallback, which polls the flag), read `t0_global` as the first
`perf_counter` call, set `t_end = t0_global + duration_s`, then run the
loop. -/
def run_benchmark_aux (size_bytes : ℕ) (duration_s : ℚ)
    (alloc : AllocOutcome) (memset_ok : Bool) (env : RunEnv) (fuel : ℕ) :
    BenchmarkResult × LoopSt :=
  match alloc with
  | .memoryError =>
    ({ init_result env duration_s with error := alloc_memory_error_msg }, {})
  | .otherError e =>
    ({ init_result env duration_s with error := alloc_error_head ++ e }, {})
  | .success =>
    run_loop size_bytes (t_end_of env duration_s) memset_ok env
      (alloc_result env duration_s size_bytes) fuel
      (init_state size_bytes memset_ok env)

/-- The `BenchmarkResult` returned by `run_benchmark`. -/
def run_benchmark (size_bytes : ℕ) (duration_s : ℚ)
    (alloc : AllocOutcome) (memset_ok : Bool) (env : RunEnv) (fuel : ℕ) :
    BenchmarkResult :=
  (run_benchmark_aux size_bytes duration_s alloc memset_ok env fuel).1

/-- A result with one second of write and read time and one GiB moved
in each direction. -/
def ratesPosResult : BenchmarkResult :=
  { write_bytes := GiB, read_bytes := GiB, write_time := 1, read_time := 1 }

/-- A result with all fields zero. -/
def ratesZeroResult : BenchmarkResult := {}

/-! ## Invariant vocabulary used by the loop lemmas -/

/-- The checksum obtained by left-folding one `adler32` call per
completed iteration over the buffer contents observed so far, starting
from `0`. -/
def chkFold (env : RunEnv) (n : ℕ) : ℕ :=
  (List.range n).foldl (fun c k => adler32 (env.content k) c) 0

/-- The counter invariant of the loop state: both byte counters are
`loops * size_bytes`. -/
def countersOK (sb : ℕ) (s : LoopSt) : Prop :=
  s.wb = s.lp * sb ∧ s.rb = s.lp * sb

/-- The checksum invariant of the loop state: the checksum is the
running fold of one full-buffer `adler32` call per completed
iteration. -/
def ckOK (env : RunEnv) (s : LoopSt) : Prop :=
  s.ck = chkFold env s.lp

/-- The write-phase trace invariant: every write phase physically wrote
the whole buffer when the bulk memset is available, and never more than
the buffer in any case. -/
def traceOK (sb : ℕ) (mo : Bool) (s : LoopSt) : Prop :=
  ∀ x ∈ s.writeTrace, (mo = true → x = sb) ∧ x ≤ sb

/-! ## Concrete environments used by counterexamples and witnesses -/

/-- A run environment whose cancellation flag flips from unset to set
between the 4th and 5th `is_set` calls (so `stop` is monotone), with a
clock that never reaches the deadline, exception-free phases and empty
observed buffer contents. -/
def cancelMidWriteEnv : RunEnv :=
  { stop := fun k => decide (4 ≤ k)
    clock := fun _ => 0
    content := fun _ => []
    writeExc := fun _ => none
    readExc := fun _ => none
    started_stamp := "2026-01-01 00:00:00"
    ended_stamp := "2026-01-01 00:00:05" }

/-- A run environment where the cancellation flag is never set, the
clock never reaches the deadline, and the write phase of iteration 1
raises an exception with message `"boom"`. -/
def writeFailEnv : RunEnv :=
  { stop := fun _ => false
    clock := fun _ => 0
    content := fun _ => []
    writeExc := fun k => if k = 1 then some "boom" else none
    readExc := fun _ => none
    started_stamp := "2026-01-01 00:00:00"
    ended_stamp := "2026-01-01 00:00:05" }

/-- A run environment whose cancellation flag is already set at every
`is_set` call. -/
def stopAtOnceEnv : RunEnv :=
  { stop := fun _ => true
    clock := fun _ => 0
    content := fun _ => []
    writeExc := fun _ => none
    readExc := fun _ => none
    started_stamp := "2026-01-01 00:00:00"
    ended_stamp := "2026-01-01 00:00:01" }

/-! ## Helper lemmas about the loop -/

/-- The chunked fill never stores more than the bytes remaining past
the current offset. -/
theorem chunked_fill_go_le (stop : ℕ → Bool) (bufLen chunkLen : ℕ) :
    ∀ (n i sc written : ℕ),
      (chunked_fill_go stop bufLen chunkLen n i sc written).1
        ≤ written + (bufLen - i) := by
  intro n
  induction n with
  | zero => intro i sc written; simp [chunked_fill_go]
  | succ m ih =>
    intro i sc written
    rw [chunked_fill_go]
    by_cases h : stop sc
    · simp [h]
    · simp only [h, if_false, Bool.false_eq_true]
      calc (chunked_fill_go stop bufLen chunkLen m (i + chunkLen) (sc + 1)
              (written + min chunkLen (bufLen - i))).1
          ≤ written + min chunkLen (bufLen - i) + (bufLen - (i + chunkLen)) := ih _ _ _
        _ ≤ written + (bufLen - i) := by omega

/-- The chunked fill never stores more than the whole buffer. -/
theorem chunked_fill_le (bufLen chunkLen : ℕ) (stop : ℕ → Bool) (sc : ℕ) :
    (chunked_fill bufLen chunkLen stop sc).1 ≤ bufLen := by
  have h := chunked_fill_go_le stop bufLen chunkLen
    ((bufLen + chunkLen - 1) / chunkLen) 0 sc 0
  simpa [chunked_fill] using h

/-- Both components of the adler32 state stay below `2^16`. -/
theorem adler_foldl_lt (l : List ℕ) :
    ∀ p : ℕ × ℕ, p.1 < 65536 → p.2 < 65536 →
      (l.foldl adler_step p).1 < 65536 ∧ (l.foldl adler_step p).2 < 65536 := by
  induction l with
  | nil => intro p h1 h2; exact ⟨h1, h2⟩
  | cons b l ih =>
    intro p h1 h2
    rw [List.foldl_cons]
    exact ih (adler_step p b)
      (lt_trans (Nat.mod_lt _ (by norm_num)) (by norm_num))
      (lt_trans (Nat.mod_lt _ (by norm_num)) (by norm_num))

/-- An adler32 value always fits in 32 bits. -/
theorem adler32_lt (data : List ℕ) (value : ℕ) : adler32 data value < 2 ^ 32 := by
  have h := adler_foldl_lt data (value % 65536, value / 65536 % 65536)
    (Nat.mod_lt _ (by norm_num)) (Nat.mod_lt _ (by norm_num))
  have hp : (2 : ℕ) ^ 32 = 4294967296 := by norm_num
  simp only [adler32]
  omega

/-- Unfolding of the running checksum fold by one iteration. -/
theorem chkFold_succ (env : RunEnv) (n : ℕ) :
    chkFold env (n + 1) = adler32 (env.content n) (chkFold env n) := by
  simp [chkFold, List.range_succ]

/-- The running checksum fold always fits in 32 bits. -/
theorem chkFold_lt (env : RunEnv) (n : ℕ) : chkFold env n < 2 ^ 32 := by
  cases n with
  | zero => norm_num [chkFold]
  | succ m => rw [chkFold_succ]; exact adler32_lt _ _

/-- A string with a nonempty left part stays nonempty under append. -/
theorem append_ne_empty_left (s t : String) (h : s ≠ "") : s ++ t ≠ "" := by
  intro hc
  apply h
  have h2 := congrArg String.data hc
  rw [String.data_append] at h2
  exact String.ext (List.append_eq_nil.mp h2).1

/-- Master lemma about the loop: from a state satisfying the counter
and trace invariants, the loop returns either the normal-exit result
built by `finish_result` from a final state that again satisfies both
invariants, or a phase-failure result that is `res1` with a nonempty
error message stored; in both cases the final ghost state satisfies
the trace invariant. -/
theorem run_loop_main (sb : ℕ) (te : ℚ) (mo : Bool) (env : RunEnv)
    (res1 : BenchmarkResult) (fuel : ℕ) (s : LoopSt)
    (hc : countersOK sb s) (hk : ckOK env s) (ht : traceOK sb mo s) :
    traceOK sb mo (run_loop sb te mo env res1 fuel s).2 ∧
      ckOK env (run_loop sb te mo env res1 fuel s).2 ∧
      (((run_loop sb te mo env res1 fuel s).1
          = finish_result env res1 (run_loop sb te mo env res1 fuel s).2 ∧
        countersOK sb (run_loop sb te mo env res1 fuel s).2) ∨
       ∃ msg, msg ≠ "" ∧
         (run_loop sb te mo env res1 fuel s).1 = { res1 with error := msg }) := by
  induction fuel generalizing s with
  | zero => exact ⟨ht, hk, Or.inl ⟨rfl, hc⟩⟩
  | succ n ih =>
    rw [run_loop]
    by_cases h1 : env.stop s.sc
    · rw [if_pos h1]
      exact ⟨ht, hk, Or.inl ⟨rfl, hc⟩⟩
    · rw [if_neg h1]
      by_cases h2 : env.clock s.cc < te
      · rw [if_neg (not_not_intro h2)]
        cases hw : env.writeExc s.lp with
        | some e =>
          exact ⟨ht, hk, Or.inr ⟨write_error_head ++ e,
            append_ne_empty_left _ _ (by decide), rfl⟩⟩
        | none =>
          have hfill : ∀ k : ℕ,
              ((mo = true →
                (if mo then (sb, k) else chunked_fill sb MiB env.stop k).1 = sb) ∧
               (if mo then (sb, k) else chunked_fill sb MiB env.stop k).1 ≤ sb) := by
            intro k
            cases mo with
            | true => exact ⟨fun _ => rfl, le_refl sb⟩
            | false =>
              constructor
              · intro hmo; cases hmo
              · simpa using chunked_fill_le sb MiB env.stop k
          have htr' : ∀ x ∈ s.writeTrace
                ++ [(if mo then (sb, s.sc + 1)
                      else chunked_fill sb MiB env.stop (s.sc + 1)).1],
              (mo = true → x = sb) ∧ x ≤ sb := by
            intro x hx
            rcases List.mem_append.mp hx with hx1 | hx1
            · exact ht x hx1
            · rw [List.mem_singleton.mp hx1]; exact hfill _
          cases hr : env.readExc s.lp with
          | some e =>
            exact ⟨htr', hk, Or.inr ⟨read_error_head ++ e,
              append_ne_empty_left _ _ (by decide), rfl⟩⟩
          | none =>
            have hc1 : countersOK sb { s with
                sc := (if mo then (sb, s.sc + 1)
                        else chunked_fill sb MiB env.stop (s.sc + 1)).2,
                cc := s.cc + 6,
                wb := s.wb + sb, rb := s.rb + sb,
                wt := s.wt + (env.clock (s.cc + 2) - env.clock (s.cc + 1)),
                rt := s.rt + (env.clock (s.cc + 4) - env.clock (s.cc + 3)),
                ck := adler32 (env.content s.lp) s.ck,
                lp := s.lp + 1,
                writeTrace := s.writeTrace
                  ++ [(if mo then (sb, s.sc + 1)
                        else chunked_fill sb MiB env.stop (s.sc + 1)).1] } := by
              obtain ⟨hwb, hrb⟩ := hc
              refine ⟨?_, ?_⟩
              · show s.wb + sb = (s.lp + 1) * sb
                rw [hwb]; ring
              · show s.rb + sb = (s.lp + 1) * sb
                rw [hrb]; ring
            have hk1 : ckOK env { s with
                sc := (if mo then (sb, s.sc + 1)
                        else chunked_fill sb MiB env.stop (s.sc + 1)).2,
                cc := s.cc + 6,
                wb := s.wb + sb, rb := s.rb + sb,
                wt := s.wt + (env.clock (s.cc + 2) - env.clock (s.cc + 1)),
                rt := s.rt + (env.clock (s.cc + 4) - env.clock (s.cc + 3)),
                ck := adler32 (env.content s.lp) s.ck,
                lp := s.lp + 1,
                writeTrace := s.writeTrace
                  ++ [(if mo then (sb, s.sc + 1)
                        else chunked_fill sb MiB env.stop (s.sc + 1)).1] } := by
              show adler32 (env.content s.lp) s.ck = chkFold env (s.lp + 1)
              rw [hk, chkFold_succ]
            exact ih _ hc1 hk1 htr'
      · rw [if_pos h2]
        exact ⟨ht, hk, Or.inl ⟨rfl, hc⟩⟩

/-! ## Claim C4: the sizing algorithm, exactly as specified -/

/-- C4: the allocation sizing policy computes its output exactly as the
specification's algorithm: `reserve = 128 MiB`;
`target = max(256 MiB, total - reserve)`;
`hard_fallback = max(256 MiB, available - 64 MiB)` if `available > 0`,
else `target`; result `max(256 MiB, min(target, hard_fallback))`; and
exactly `1 GiB` whenever `total <= 0`.  The source's extra
`hard_fallback if hard_fallback > 0 else target` guard is vacuous since
`hard_fallback ≥ 256 MiB` always. -/
theorem choose_eq_plan_spec (total avail : ℤ) :
    choose_100_percent_allocation total avail = plan_spec total avail := by
  simp only [choose_100_percent_allocation, plan_spec, MiB, GiB]
  norm_num
  split_ifs <;> omega

/-! ## Claim C2: bounds of the sizing policy -/

/-- C2 counterexample: for `total = 1 > 0` (and `available = 0`) the
policy returns `256 MiB`, which exceeds `total`, so "`target_bytes <=
total` for every `MemoryInfo` with `total > 0`" is false. -/
theorem plan_le_total_cex :
    0 < (1 : ℤ) ∧ choose_100_percent_allocation 1 0 = 256 * (MiB : ℤ) ∧
      1 < choose_100_percent_allocation 1 0 := by decide

/-- C2 amended: for every probe reading with `total > 0` the policy
returns at least `256 MiB`, and the result is bounded by `total`
whenever `total` itself is at least `256 MiB` (for `0 < total <
256 MiB` the `256 MiB` floor wins and the result exceeds `total`). -/
theorem plan_bounds (total avail : ℤ) (h : 0 < total) :
    256 * (MiB : ℤ) ≤ choose_100_percent_allocation total avail ∧
      (256 * (MiB : ℤ) ≤ total → choose_100_percent_allocation total avail ≤ total) := by
  simp only [choose_100_percent_allocation, MiB]
  norm_num
  split_ifs <;> constructor <;> omega

/-- Witness for `plan_bounds` at `total = 1 GiB`, `available = 0`. -/
theorem plan_bounds_witness :
    256 * (MiB : ℤ) ≤ choose_100_percent_allocation (GiB : ℤ) 0 ∧
      choose_100_percent_allocation (GiB : ℤ) 0 ≤ (GiB : ℤ) := by
  have h := plan_bounds (GiB : ℤ) 0 (by norm_num [GiB])
  exact ⟨h.1, h.2 (by norm_num [GiB, MiB])⟩

/-! ## Claim C6: derived rates and the division-by-zero guards -/

/-- C6: for every `BenchmarkResult`, each derived rate equals its byte
count divided by its time divided by `2^30` when the time denominator
is positive, and is exactly `0` when the denominator is `0`; the
division-by-zero case is unreachable because each quotient sits under
the positivity guard. -/
theorem rates_def (r : BenchmarkResult) :
    (0 < r.write_time → r.write_gbps = (r.write_bytes : ℚ) / r.write_time / (GiB : ℚ)) ∧
    (r.write_time = 0 → r.write_gbps = 0) ∧
    (0 < r.read_time → r.read_gbps = (r.read_bytes : ℚ) / r.read_time / (GiB : ℚ)) ∧
    (r.read_time = 0 → r.read_gbps = 0) ∧
    (0 < r.write_time + r.read_time →
      r.total_gbps = ((r.write_bytes : ℚ) + (r.read_bytes : ℚ))
        / (r.write_time + r.read_time) / (GiB : ℚ)) ∧
    (r.write_time + r.read_time = 0 → r.total_gbps = 0) := by
  refine ⟨fun h => ?_, fun h => ?_, fun h => ?_, fun h => ?_, fun h => ?_, fun h => ?_⟩ <;>
    simp [BenchmarkResult.write_gbps, BenchmarkResult.read_gbps,
      BenchmarkResult.total_gbps, h]

/-- Witness for `rates_def`: each positivity hypothesis discharged on
`ratesPosResult`, each zero hypothesis on `ratesZeroResult`. -/
theorem rates_def_witness :
    ratesPosResult.write_gbps
        = (ratesPosResult.write_bytes : ℚ) / ratesPosResult.write_time / (GiB : ℚ) ∧
      ratesZeroResult.write_gbps = 0 ∧
      ratesPosResult.read_gbps
        = (ratesPosResult.read_bytes : ℚ) / ratesPosResult.read_time / (GiB : ℚ) ∧
      ratesZeroResult.read_gbps = 0 ∧
      ratesPosResult.total_gbps
        = ((ratesPosResult.write_bytes : ℚ) + (ratesPosResult.read_bytes : ℚ))
          / (ratesPosResult.write_time + ratesPosResult.read_time) / (GiB : ℚ) ∧
      ratesZeroResult.total_gbps = 0 := by
  refine ⟨(rates_def ratesPosResult).1 ?_, (rates_def ratesZeroResult).2.1 ?_,
    (rates_def ratesPosResult).2.2.1 ?_, (rates_def ratesZeroResult).2.2.2.1 ?_,
    (rates_def ratesPosResult).2.2.2.2.1 ?_, (rates_def ratesZeroResult).2.2.2.2.2 ?_⟩ <;>
    norm_num [ratesPosResult, ratesZeroResult]

/-! ## Bridging lemmas from `run_benchmark` to the loop lemma -/

/-- On successful allocation, `run_benchmark_aux` is the loop run from
the initial state. -/
theorem run_benchmark_aux_success (sb : ℕ) (d : ℚ) (mo : Bool) (env : RunEnv)
    (fuel : ℕ) :
    run_benchmark_aux sb d .success mo env fuel
      = run_loop sb (t_end_of env d) mo env (alloc_result env d sb) fuel
          (init_state sb mo env) := rfl

/-- The initial loop state satisfies the counter invariant. -/
theorem countersOK_init (sb : ℕ) (mo : Bool) (env : RunEnv) :
    countersOK sb (init_state sb mo env) := by
  constructor <;> simp [init_state]

/-- The initial loop state satisfies the checksum invariant. -/
theorem ckOK_init (sb : ℕ) (mo : Bool) (env : RunEnv) :
    ckOK env (init_state sb mo env) := rfl

/-- The initial loop state satisfies the trace invariant. -/
theorem traceOK_init (sb : ℕ) (mo : Bool) (env : RunEnv) :
    traceOK sb mo (init_state sb mo env) := by
  intro x hx
  simp [init_state] at hx

/-! ## Claim C5: byte counters of an ok run -/

/-- C5: for every run whose result has `ok = true`, the byte counters
satisfy `write_bytes == loop_count * allocated_bytes` and
`read_bytes == loop_count * allocated_bytes` — over every size,
duration, allocation outcome, memset availability, environment and
fuel. -/
theorem ok_counters_invariant (sb : ℕ) (dur : ℚ) (alloc : AllocOutcome)
    (mo : Bool) (env : RunEnv) (fuel : ℕ)
    (hok : (run_benchmark sb dur alloc mo env fuel).ok = true) :
    (run_benchmark sb dur alloc mo env fuel).write_bytes
        = (run_benchmark sb dur alloc mo env fuel).loops
          * (run_benchmark sb dur alloc mo env fuel).allocated_bytes ∧
      (run_benchmark sb dur alloc mo env fuel).read_bytes
        = (run_benchmark sb dur alloc mo env fuel).loops
          * (run_benchmark sb dur alloc mo env fuel).allocated_bytes := by
  cases alloc with
  | memoryError =>
    exact absurd hok (by simp [run_benchmark, run_benchmark_aux, init_result])
  | otherError e =>
    exact absurd hok (by simp [run_benchmark, run_benchmark_aux, init_result])
  | success =>
    have h := run_loop_main sb (t_end_of env dur) mo env (alloc_result env dur sb)
      fuel (init_state sb mo env) (countersOK_init sb mo env)
      (ckOK_init sb mo env) (traceOK_init sb mo env)
    have hok' : (run_loop sb (t_end_of env dur) mo env (alloc_result env dur sb) fuel (init_state sb mo env)).1.ok = true := hok
    rcases h.2.2 with ⟨hfin, hcnt⟩ | ⟨msg, hmsg, herr⟩
    · have key : (run_loop sb (t_end_of env dur) mo env (alloc_result env dur sb) fuel (init_state sb mo env)).1.write_bytes = (run_loop sb (t_end_of env dur) mo env (alloc_result env dur sb) fuel (init_state sb mo env)).1.loops * (run_loop sb (t_end_of env dur) mo env (alloc_result env dur sb) fuel (init_state sb mo env)).1.allocated_bytes ∧
          (run_loop sb (t_end_of env dur) mo env (alloc_result env dur sb) fuel (init_state sb mo env)).1.read_bytes = (run_loop sb (t_end_of env dur) mo env (alloc_result env dur sb) fuel (init_state sb mo env)).1.loops * (run_loop sb (t_end_of env dur) mo env (alloc_result env dur sb) fuel (init_state sb mo env)).1.allocated_bytes := by
        rw [hfin]
        exact ⟨hcnt.1, hcnt.2⟩
      exact key
    · exfalso
      rw [herr] at hok'
      simp [alloc_result, init_result] at hok'

/-- Witness for `ok_counters_invariant`: a run cancelled at once
finishes with `ok = true`, and its counters satisfy the invariant. -/
theorem ok_counters_invariant_witness :
    (run_benchmark 4 5 .success true stopAtOnceEnv 2).write_bytes
        = (run_benchmark 4 5 .success true stopAtOnceEnv 2).loops
          * (run_benchmark 4 5 .success true stopAtOnceEnv 2).allocated_bytes ∧
      (run_benchmark 4 5 .success true stopAtOnceEnv 2).read_bytes
        = (run_benchmark 4 5 .success true stopAtOnceEnv 2).loops
          * (run_benchmark 4 5 .success true stopAtOnceEnv 2).allocated_bytes :=
  ok_counters_invariant 4 5 .success true stopAtOnceEnv 2 (by
    norm_num [run_benchmark, run_benchmark_aux, run_loop, chunked_fill, clamp_duration,
      init_result, alloc_result, prime_sc, init_state, t_end_of,
      chunked_fill_go, finish_result, adler32, MiB, stopAtOnceEnv])

/-! ## Claim C7: the checksum is a running fold -/

/-- C7: for every run, the result's checksum equals the left fold of
one `adler32` call per completed iteration over the sequence of buffer
contents those iterations read, starting from `0` and never resetting
between iterations; in particular it is deterministic in that content
sequence. -/
theorem checksum_fold (sb : ℕ) (dur : ℚ) (alloc : AllocOutcome) (mo : Bool)
    (env : RunEnv) (fuel : ℕ) :
    (run_benchmark sb dur alloc mo env fuel).checksum
      = ((List.range (run_benchmark sb dur alloc mo env fuel).loops).map
            env.content).foldl (fun c buf => adler32 buf c) 0 := by
  have hmap : ∀ n : ℕ,
      ((List.range n).map env.content).foldl (fun c buf => adler32 buf c) 0
        = chkFold env n := by
    intro n
    rw [List.foldl_map]
    rfl
  cases alloc with
  | memoryError =>
    simp [run_benchmark, run_benchmark_aux, hmap, chkFold, init_result]
  | otherError e =>
    simp [run_benchmark, run_benchmark_aux, hmap, chkFold, init_result]
  | success =>
    have h := run_loop_main sb (t_end_of env dur) mo env (alloc_result env dur sb)
      fuel (init_state sb mo env) (countersOK_init sb mo env)
      (ckOK_init sb mo env) (traceOK_init sb mo env)
    rcases h.2.2 with ⟨hfin, -⟩ | ⟨msg, -, herr⟩
    · have key : (run_loop sb (t_end_of env dur) mo env (alloc_result env dur sb) fuel (init_state sb mo env)).1.checksum
          = ((List.range (run_loop sb (t_end_of env dur) mo env (alloc_result env dur sb) fuel (init_state sb mo env)).1.loops).map env.content).foldl
              (fun c buf => adler32 buf c) 0 := by
        rw [hfin, hmap]
        show (run_loop sb (t_end_of env dur) mo env (alloc_result env dur sb) fuel (init_state sb mo env)).2.ck % 2 ^ 32 = chkFold env (run_loop sb (t_end_of env dur) mo env (alloc_result env dur sb) fuel (init_state sb mo env)).2.lp
        rw [h.2.1]
        exact Nat.mod_eq_of_lt (chkFold_lt env _)
      exact key
    · have key : (run_loop sb (t_end_of env dur) mo env (alloc_result env dur sb) fuel (init_state sb mo env)).1.checksum
          = ((List.range (run_loop sb (t_end_of env dur) mo env (alloc_result env dur sb) fuel (init_state sb mo env)).1.loops).map env.content).foldl
              (fun c buf => adler32 buf c) 0 := by
        rw [herr, hmap]
        rfl
      exact key

/-! ## Claim C10: allocated_bytes is all-or-nothing -/

/-- C10: for every run, the result's `allocated_bytes` is either
exactly the requested `size_bytes` (allocation succeeded) or exactly
`0` (allocation failed); no intermediate fallback size is ever
reported. -/
theorem allocated_all_or_nothing (sb : ℕ) (dur : ℚ) (alloc : AllocOutcome)
    (mo : Bool) (env : RunEnv) (fuel : ℕ) :
    (run_benchmark sb dur alloc mo env fuel).allocated_bytes = sb ∨
      (run_benchmark sb dur alloc mo env fuel).allocated_bytes = 0 := by
  cases alloc with
  | memoryError => exact Or.inr rfl
  | otherError e => exact Or.inr rfl
  | success =>
    left
    have h := run_loop_main sb (t_end_of env dur) mo env (alloc_result env dur sb)
      fuel (init_state sb mo env) (countersOK_init sb mo env)
      (ckOK_init sb mo env) (traceOK_init sb mo env)
    rcases h.2.2 with ⟨hfin, -⟩ | ⟨msg, -, herr⟩
    · have key : (run_loop sb (t_end_of env dur) mo env (alloc_result env dur sb) fuel (init_state sb mo env)).1.allocated_bytes = sb := by
        rw [hfin]; rfl
      exact key
    · have key : (run_loop sb (t_end_of env dur) mo env (alloc_result env dur sb) fuel (init_state sb mo env)).1.allocated_bytes = sb := by
        rw [herr]; rfl
      exact key

/-! ## Claim C9: allocation failure -/

/-- C9: if allocation fails (`MemoryError` or any other exception), the
run ends immediately as Failed: `ok = false`, a nonempty `error`,
`allocated_bytes = 0`, and every counter
(`write_bytes`, `read_bytes`, `write_time`, `read_time`, `checksum`,
`loop_count`) zero — the loop and priming are never reached and the
failure is converted into the result rather than escaping. -/
theorem alloc_failure_result (sb : ℕ) (dur : ℚ) (alloc : AllocOutcome)
    (mo : Bool) (env : RunEnv) (fuel : ℕ) (h : alloc ≠ AllocOutcome.success) :
    (run_benchmark sb dur alloc mo env fuel).ok = false ∧
      (run_benchmark sb dur alloc mo env fuel).error ≠ "" ∧
      (run_benchmark sb dur alloc mo env fuel).allocated_bytes = 0 ∧
      (run_benchmark sb dur alloc mo env fuel).write_bytes = 0 ∧
      (run_benchmark sb dur alloc mo env fuel).read_bytes = 0 ∧
      (run_benchmark sb dur alloc mo env fuel).write_time = 0 ∧
      (run_benchmark sb dur alloc mo env fuel).read_time = 0 ∧
      (run_benchmark sb dur alloc mo env fuel).checksum = 0 ∧
      (run_benchmark sb dur alloc mo env fuel).loops = 0 := by
  cases alloc with
  | success => exact absurd rfl h
  | memoryError =>
    refine ⟨rfl, ?_, rfl, rfl, rfl, rfl, rfl, rfl, rfl⟩
    show alloc_memory_error_msg ≠ ""
    decide
  | otherError e =>
    refine ⟨rfl, ?_, rfl, rfl, rfl, rfl, rfl, rfl, rfl⟩
    show alloc_error_head ++ e ≠ ""
    exact append_ne_empty_left _ _ (by decide)

/-- Witness for `alloc_failure_result` at a concrete `MemoryError`
run. -/
theorem alloc_failure_result_witness :
    (run_benchmark 4 5 .memoryError true stopAtOnceEnv 1).ok = false ∧
      (run_benchmark 4 5 .memoryError true stopAtOnceEnv 1).allocated_bytes = 0 ∧
      (run_benchmark 4 5 .memoryError true stopAtOnceEnv 1).write_bytes = 0 ∧
      (run_benchmark 4 5 .memoryError true stopAtOnceEnv 1).read_bytes = 0 ∧
      (run_benchmark 4 5 .memoryError true stopAtOnceEnv 1).write_time = 0 ∧
      (run_benchmark 4 5 .memoryError true stopAtOnceEnv 1).read_time = 0 ∧
      (run_benchmark 4 5 .memoryError true stopAtOnceEnv 1).checksum = 0 ∧
      (run_benchmark 4 5 .memoryError true stopAtOnceEnv 1).loops = 0 :=
  have h := alloc_failure_result 4 5 .memoryError true stopAtOnceEnv 1 (by decide)
  ⟨h.1, h.2.2.1, h.2.2.2.1, h.2.2.2.2.1, h.2.2.2.2.2.1, h.2.2.2.2.2.2.1,
    h.2.2.2.2.2.2.2.1, h.2.2.2.2.2.2.2.2⟩

/-! ## Claim C3: what a phase failure leaves in the result -/

/-- C3 counterexample: in a run whose iteration 0 completes and whose
iteration 1 write phase faults, the local accumulators had reached
`write_bytes = 4` and `loop_count = 1`, yet the returned result carries
all-zero counters and an unstamped `ended_at` — the partial counters
are NOT preserved, falsifying the claim. -/
theorem failure_counters_dropped_cex :
    (run_benchmark_aux 4 5 .success true writeFailEnv 5).2.wb = 4 ∧
      (run_benchmark_aux 4 5 .success true writeFailEnv 5).2.lp = 1 ∧
      (run_benchmark 4 5 .success true writeFailEnv 5).error
        = write_error_head ++ "boom" ∧
      (run_benchmark 4 5 .success true writeFailEnv 5).ok = false ∧
      (run_benchmark 4 5 .success true writeFailEnv 5).write_bytes = 0 ∧
      (run_benchmark 4 5 .success true writeFailEnv 5).read_bytes = 0 ∧
      (run_benchmark 4 5 .success true writeFailEnv 5).write_time = 0 ∧
      (run_benchmark 4 5 .success true writeFailEnv 5).read_time = 0 ∧
      (run_benchmark 4 5 .success true writeFailEnv 5).loops = 0 ∧
      (run_benchmark 4 5 .success true writeFailEnv 5).ended_at = "" := by
  refine ⟨?_, ?_, ?_, ?_, ?_, ?_, ?_, ?_, ?_, ?_⟩
  · norm_num [run_benchmark, run_benchmark_aux, run_loop, chunked_fill, clamp_duration,
      init_result, alloc_result, prime_sc, init_state, t_end_of,
      chunked_fill_go, finish_result, adler32, MiB, cancelMidWriteEnv, writeFailEnv,
      stopAtOnceEnv]
  · norm_num [run_benchmark, run_benchmark_aux, run_loop, chunked_fill, clamp_duration,
      init_result, alloc_result, prime_sc, init_state, t_end_of,
      chunked_fill_go, finish_result, adler32, MiB, cancelMidWriteEnv, writeFailEnv,
      stopAtOnceEnv]
  · norm_num [run_benchmark, run_benchmark_aux, run_loop, chunked_fill, clamp_duration,
      init_result, alloc_result, prime_sc, init_state, t_end_of,
      chunked_fill_go, finish_result, adler32, MiB, cancelMidWriteEnv, writeFailEnv,
      stopAtOnceEnv]
  · norm_num [run_benchmark, run_benchmark_aux, run_loop, chunked_fill, clamp_duration,
      init_result, alloc_result, prime_sc, init_state, t_end_of,
      chunked_fill_go, finish_result, adler32, MiB, cancelMidWriteEnv, writeFailEnv,
      stopAtOnceEnv]
  · norm_num [run_benchmark, run_benchmark_aux, run_loop, chunked_fill, clamp_duration,
      init_result, alloc_result, prime_sc, init_state, t_end_of,
      chunked_fill_go, finish_result, adler32, MiB, cancelMidWriteEnv, writeFailEnv,
      stopAtOnceEnv]
  · norm_num [run_benchmark, run_benchmark_aux, run_loop, chunked_fill, clamp_duration,
      init_result, alloc_result, prime_sc, init_state, t_end_of,
      chunked_fill_go, finish_result, adler32, MiB, cancelMidWriteEnv, writeFailEnv,
      stopAtOnceEnv]
  · norm_num [run_benchmark, run_benchmark_aux, run_loop, chunked_fill, clamp_duration,
      init_result, alloc_result, prime_sc, init_state, t_end_of,
      chunked_fill_go, finish_result, adler32, MiB, cancelMidWriteEnv, writeFailEnv,
      stopAtOnceEnv]
  · norm_num [run_benchmark, run_benchmark_aux, run_loop, chunked_fill, clamp_duration,
      init_result, alloc_result, prime_sc, init_state, t_end_of,
      chunked_fill_go, finish_result, adler32, MiB, cancelMidWriteEnv, writeFailEnv,
      stopAtOnceEnv]
  · norm_num [run_benchmark, run_benchmark_aux, run_loop, chunked_fill, clamp_duration,
      init_result, alloc_result, prime_sc, init_state, t_end_of,
      chunked_fill_go, finish_result, adler32, MiB, cancelMidWriteEnv, writeFailEnv,
      stopAtOnceEnv]
  · norm_num [run_benchmark, run_benchmark_aux, run_loop, chunked_fill, clamp_duration,
      init_result, alloc_result, prime_sc, init_state, t_end_of,
      chunked_fill_go, finish_result, adler32, MiB, cancelMidWriteEnv, writeFailEnv,
      stopAtOnceEnv]

/-- C3 amended: if a write or read phase fails mid-run, the run ends as
Failed (`ok = false`) with a nonempty error, but the returned result
does NOT preserve the partial accumulated counters — `write_bytes`,
`read_bytes`, `write_time`, `read_time`, `checksum` and `loop_count`
stay at their initial zeros — and `ended_at` is never stamped. -/
theorem failure_result_zeroed (sb : ℕ) (dur : ℚ) (mo : Bool) (env : RunEnv)
    (fuel : ℕ)
    (herr : (run_benchmark sb dur .success mo env fuel).error ≠ "") :
    (run_benchmark sb dur .success mo env fuel).ok = false ∧
      (run_benchmark sb dur .success mo env fuel).write_bytes = 0 ∧
      (run_benchmark sb dur .success mo env fuel).read_bytes = 0 ∧
      (run_benchmark sb dur .success mo env fuel).write_time = 0 ∧
      (run_benchmark sb dur .success mo env fuel).read_time = 0 ∧
      (run_benchmark sb dur .success mo env fuel).checksum = 0 ∧
      (run_benchmark sb dur .success mo env fuel).loops = 0 ∧
      (run_benchmark sb dur .success mo env fuel).ended_at = "" := by
  have h := run_loop_main sb (t_end_of env dur) mo env (alloc_result env dur sb)
    fuel (init_state sb mo env) (countersOK_init sb mo env)
    (ckOK_init sb mo env) (traceOK_init sb mo env)
  have herr' : (run_loop sb (t_end_of env dur) mo env (alloc_result env dur sb) fuel (init_state sb mo env)).1.error ≠ "" := herr
  rcases h.2.2 with ⟨hfin, -⟩ | ⟨msg, -, hE⟩
  · exfalso
    apply herr'
    rw [hfin]
    rfl
  · have key : (run_loop sb (t_end_of env dur) mo env (alloc_result env dur sb) fuel (init_state sb mo env)).1.ok = false ∧ (run_loop sb (t_end_of env dur) mo env (alloc_result env dur sb) fuel (init_state sb mo env)).1.write_bytes = 0 ∧ (run_loop sb (t_end_of env dur) mo env (alloc_result env dur sb) fuel (init_state sb mo env)).1.read_bytes = 0 ∧
        (run_loop sb (t_end_of env dur) mo env (alloc_result env dur sb) fuel (init_state sb mo env)).1.write_time = 0 ∧ (run_loop sb (t_end_of env dur) mo env (alloc_result env dur sb) fuel (init_state sb mo env)).1.read_time = 0 ∧ (run_loop sb (t_end_of env dur) mo env (alloc_result env dur sb) fuel (init_state sb mo env)).1.checksum = 0 ∧
        (run_loop sb (t_end_of env dur) mo env (alloc_result env dur sb) fuel (init_state sb mo env)).1.loops = 0 ∧ (run_loop sb (t_end_of env dur) mo env (alloc_result env dur sb) fuel (init_state sb mo env)).1.ended_at = "" := by
      rw [hE]
      exact ⟨rfl, rfl, rfl, rfl, rfl, rfl, rfl, rfl⟩
    exact key

/-- Witness for `failure_result_zeroed` at the concrete faulting run. -/
theorem failure_result_zeroed_witness :
    (run_benchmark 4 5 .success true writeFailEnv 5).ok = false ∧
      (run_benchmark 4 5 .success true writeFailEnv 5).write_bytes = 0 ∧
      (run_benchmark 4 5 .success true writeFailEnv 5).read_bytes = 0 ∧
      (run_benchmark 4 5 .success true writeFailEnv 5).write_time = 0 ∧
      (run_benchmark 4 5 .success true writeFailEnv 5).read_time = 0 ∧
      (run_benchmark 4 5 .success true writeFailEnv 5).checksum = 0 ∧
      (run_benchmark 4 5 .success true writeFailEnv 5).loops = 0 ∧
      (run_benchmark 4 5 .success true writeFailEnv 5).ended_at = "" :=
  failure_result_zeroed 4 5 true writeFailEnv 5 (by
    norm_num [run_benchmark, run_benchmark_aux, run_loop, chunked_fill, clamp_duration,
      init_result, alloc_result, prime_sc, init_state, t_end_of,
      chunked_fill_go, finish_result, adler32, MiB, cancelMidWriteEnv, writeFailEnv,
      stopAtOnceEnv]
    decide)

/-! ## Claim C1: cancellation granularity of the phases -/

/-- C1 counterexample: in the chunked fallback write path, with a
monotone cancellation flag that flips from unset (4th `is_set` call)
to set (5th call) — both calls made inside iteration 0's write phase —
the started write phase stores only `1 MiB` of the `2 MiB` buffer
before honoring cancellation, so a started write phase does NOT always
complete in full. -/
theorem write_phase_partial_cex :
    (run_benchmark_aux (2 * MiB) 5 .success false cancelMidWriteEnv 3).2.writeTrace
        = [MiB] ∧
      MiB < 2 * MiB ∧
      cancelMidWriteEnv.stop 0 = false ∧
      cancelMidWriteEnv.stop 1 = false ∧
      cancelMidWriteEnv.stop 2 = false ∧
      cancelMidWriteEnv.stop 3 = false ∧
      cancelMidWriteEnv.stop 4 = true ∧
      cancelMidWriteEnv.stop 5 = true := by
  refine ⟨?_, ?_, by decide, by decide, by decide, by decide, by decide, by decide⟩
  · norm_num [run_benchmark, run_benchmark_aux, run_loop, chunked_fill, clamp_duration,
      init_result, alloc_result, prime_sc, init_state, t_end_of,
      chunked_fill_go, finish_result, adler32, MiB, cancelMidWriteEnv, writeFailEnv,
      stopAtOnceEnv]
  · norm_num [MiB]

/-- C1 amended: phase completion holds in the bulk-memset write path
and always for the read phase: when `MEMnorm_num [run_benchmark, run_benchmark_aux, run_loop, chunked_fill, clamp_duration,
      init_result, alloc_result, prime_sc, init_state, t_end_of,
      chunked_fill_go, finish_result, adler32, MiB, cancelMidWriteEnv, writeFailEnv,
      stopAtOnceEnv]` is available every
started write phase writes the entire buffer regardless of the flag
(and never more than the buffer in any path), and the checksum state
is always the fold of one whole-buffer `adler32` call per completed
iteration (the read phase has no mid-phase flag check).  Only the
chunked fallback write path may stop at a 1 MiB chunk boundary. -/
theorem phase_granularity (sb : ℕ) (dur : ℚ) (mo : Bool) (env : RunEnv)
    (fuel : ℕ) :
    (∀ x ∈ (run_benchmark_aux sb dur .success mo env fuel).2.writeTrace,
        (mo = true → x = sb) ∧ x ≤ sb) ∧
      (run_benchmark_aux sb dur .success mo env fuel).2.ck
        = chkFold env (run_benchmark_aux sb dur .success mo env fuel).2.lp := by
  have h := run_loop_main sb (t_end_of env dur) mo env (alloc_result env dur sb)
    fuel (init_state sb mo env) (countersOK_init sb mo env)
    (ckOK_init sb mo env) (traceOK_init sb mo env)
  exact ⟨h.1, h.2.1⟩

/-- Witness for `phase_granularity`, discharging the trace membership
on the concrete one-iteration memset run whose trace is `[4]`. -/
theorem phase_granularity_witness :
    ((4 : ℕ) = 4 ∧ (4 : ℕ) ≤ 4) ∧
      (run_benchmark_aux 4 5 .success true writeFailEnv 1).2.ck
        = chkFold writeFailEnv
            (run_benchmark_aux 4 5 .success true writeFailEnv 1).2.lp := by
  have hmem : (4 : ℕ) ∈ (run_benchmark_aux 4 5 .success true writeFailEnv 1).2.writeTrace := by
    norm_num [run_benchmark, run_benchmark_aux, run_loop, chunked_fill, clamp_duration,
      init_result, alloc_result, prime_sc, init_state, t_end_of,
      chunked_fill_go, finish_result, adler32, MiB, cancelMidWriteEnv, writeFailEnv,
      stopAtOnceEnv]
  have h := phase_granularity 4 5 true writeFailEnv 1
  exact ⟨⟨(h.1 4 hmem).1 rfl, (h.1 4 hmem).2⟩, h.2⟩

/-- The flag trajectory of `cancelMidWriteEnv` is monotone: once the
cancellation flag reads set, it stays set at every later check. -/
theorem cancelMidWriteEnv_stop_monotone (j k : ℕ) (hjk : j ≤ k)
    (hj : cancelMidWriteEnv.stop j = true) : cancelMidWriteEnv.stop k = true := by
  simp only [cancelMidWriteEnv, decide_eq_true_eq] at hj ⊢
  omega

/-! ## Claim C8: cancellation around the first iteration -/

/-- C8 counterexample: the cancellation flag flips from unset to set
between the 4th and 5th `is_set` calls, both made inside iteration 0's
write phase — so it is signaled after allocation and before the first
loop iteration completes — yet the result has `loop_count = 1` and
`write_bytes = read_bytes = 2 MiB`, not `loop_count = 0` with zero
byte counts. -/
theorem cancel_mid_first_iteration_cex :
    (run_benchmark (2 * MiB) 5 .success false cancelMidWriteEnv 3).ok = true ∧
      (run_benchmark (2 * MiB) 5 .success false cancelMidWriteEnv 3).loops = 1 ∧
      (run_benchmark (2 * MiB) 5 .success false cancelMidWriteEnv 3).write_bytes
        = 2 * MiB ∧
      (run_benchmark (2 * MiB) 5 .success false cancelMidWriteEnv 3).read_bytes
        = 2 * MiB ∧
      cancelMidWriteEnv.stop 0 = false ∧
      cancelMidWriteEnv.stop 1 = false ∧
      cancelMidWriteEnv.stop 2 = false ∧
      cancelMidWriteEnv.stop 3 = false ∧
      cancelMidWriteEnv.stop 4 = true ∧
      cancelMidWriteEnv.stop 5 = true := by
  refine ⟨?_, ?_, ?_, ?_, by decide, by decide, by decide, by decide, by decide,
    by decide⟩
  · norm_num [run_benchmark, run_benchmark_aux, run_loop, chunked_fill, clamp_duration,
      init_result, alloc_result, prime_sc, init_state, t_end_of,
      chunked_fill_go, finish_result, adler32, MiB, cancelMidWriteEnv, writeFailEnv,
      stopAtOnceEnv]
  · norm_num [run_benchmark, run_benchmark_aux, run_loop, chunked_fill, clamp_duration,
      init_result, alloc_result, prime_sc, init_state, t_end_of,
      chunked_fill_go, finish_result, adler32, MiB, cancelMidWriteEnv, writeFailEnv,
      stopAtOnceEnv]
  · norm_num [run_benchmark, run_benchmark_aux, run_loop, chunked_fill, clamp_duration,
      init_result, alloc_result, prime_sc, init_state, t_end_of,
      chunked_fill_go, finish_result, adler32, MiB, cancelMidWriteEnv, writeFailEnv,
      stopAtOnceEnv]
  · norm_num [run_benchmark, run_benchmark_aux, run_loop, chunked_fill, clamp_duration,
      init_result, alloc_result, prime_sc, init_state, t_end_of,
      chunked_fill_go, finish_result, adler32, MiB, cancelMidWriteEnv, writeFailEnv,
      stopAtOnceEnv]

/-- C8 amended: if the cancellation flag is already set at the first
loop-condition check (it was signaled during allocation or priming,
before the loop began), the run still produces a terminal result with
`ok = true`, `loop_count = 0` and `write_bytes = read_bytes = 0`; a
flag signaled after the first iteration has started only takes effect
once that iteration has completed and been counted. -/
theorem cancel_before_loop (sb : ℕ) (dur : ℚ) (mo : Bool) (env : RunEnv)
    (fuel : ℕ) (hstop : env.stop (prime_sc sb mo env) = true) :
    (run_benchmark sb dur .success mo env fuel).ok = true ∧
      (run_benchmark sb dur .success mo env fuel).loops = 0 ∧
      (run_benchmark sb dur .success mo env fuel).write_bytes = 0 ∧
      (run_benchmark sb dur .success mo env fuel).read_bytes = 0 := by
  cases fuel with
  | zero => exact ⟨rfl, rfl, rfl, rfl⟩
  | succ n =>
    have key : (run_loop sb (t_end_of env dur) mo env (alloc_result env dur sb)
          (n + 1) (init_state sb mo env)).1.ok = true ∧
        (run_loop sb (t_end_of env dur) mo env (alloc_result env dur sb)
          (n + 1) (init_state sb mo env)).1.loops = 0 ∧
        (run_loop sb (t_end_of env dur) mo env (alloc_result env dur sb)
          (n + 1) (init_state sb mo env)).1.write_bytes = 0 ∧
        (run_loop sb (t_end_of env dur) mo env (alloc_result env dur sb)
          (n + 1) (init_state sb mo env)).1.read_bytes = 0 := by
      rw [run_loop]
      rw [if_pos (show env.stop (init_state sb mo env).sc = true from hstop)]
      exact ⟨rfl, rfl, rfl, rfl⟩
    exact key

/-- Witness for `cancel_before_loop` on a run whose flag is set from
the start. -/
theorem cancel_before_loop_witness :
    (run_benchmark 4 5 .success true stopAtOnceEnv 2).ok = true ∧
      (run_benchmark 4 5 .success true stopAtOnceEnv 2).loops = 0 ∧
      (run_benchmark 4 5 .success true stopAtOnceEnv 2).write_bytes = 0 ∧
      (run_benchmark 4 5 .success true stopAtOnceEnv 2).read_bytes = 0 :=
  cancel_before_loop 4 5 true stopAtOnceEnv 2 rfl

end RamSpeedtest
